import Mathlib

/-!
Verification of the session-management and search core of the AITabManager
browser extension.  The definitions below are a shallow embedding of the
JavaScript source:

* `src/scripts/storage.js` — the session collection operations
  (`updateSession`, `deleteSession`);
* `src/scripts/ai-service.js` — cosine similarity, the relevance reranker
  (`rankSessionsByRelevance`) and its response parsing;
* the background service worker (`src/unnamed/part_002`) — `restoreSession`,
  `generateContextForSession` and `searchSessionsSemantically`.

External effects (HTTP calls to the model APIs, browser window creation,
the IndexedDB embedding store) are modelled as explicit oracle arguments:
a fetch that may fail is an `Except String _` parameter, and the numeric
value of a cosine similarity (computed in the source with floating-point
square roots) is an abstract scoring parameter `score`; the length guard
of `cosineSimilarity`, which is what the claims are about, is concrete.
JavaScript numbers are modelled as `ℚ`.
-/

/-- A tab group produced by the AI grouping step:
`{"name": ..., "tabIndices": [...]}` with 1-based tab indices. -/
structure TabGroup where
  name : String
  tabIndices : List Nat
deriving Repr, DecidableEq, Inhabited

/-- A stored session, with the fields the verified operations read or write.
`context`, `generatingContext`, `generationStatus` and `tabGroups` are
optional because a freshly captured session does not have them
(`none` models a JavaScript `undefined` field). -/
structure Session where
  id : String
  name : String
  context : Option String := none
  generatingContext : Option Bool := none
  generationStatus : Option String := none
  tabGroups : Option (List TabGroup) := none
deriving Repr, DecidableEq, Inhabited

/-- An `updates` object passed to `StorageService.updateSession`.  A field
that is `none` is absent from the object and leaves the session's field
alone; `tabGroups := some none` models the call site that passes
`tabGroups: undefined`, which the object spread *does* write, clearing the
field. -/
structure SessionUpdates where
  name : Option String := none
  context : Option String := none
  generatingContext : Option Bool := none
  generationStatus : Option String := none
  tabGroups : Option (Option (List TabGroup)) := none
deriving Repr, DecidableEq, Inhabited

/-- The JavaScript object merge `{ ...session, ...updates }`: every field
present in `updates` overwrites the session's field, every absent field is
kept.  The call sites never write `id`, so `id` is kept. -/
def applyUpdates (s : Session) (u : SessionUpdates) : Session :=
  { id := s.id
    name := match u.name with | some v => v | none => s.name
    context := match u.context with | some v => some v | none => s.context
    generatingContext :=
      match u.generatingContext with | some v => some v | none => s.generatingContext
    generationStatus :=
      match u.generationStatus with | some v => some v | none => s.generationStatus
    tabGroups := match u.tabGroups with | some v => v | none => s.tabGroups }

/-- `StorageService.updateSession` (storage.js lines 20-31): find the first
session whose `id` matches (`findIndex`), throw `'Session not found'` when
there is none, otherwise replace that entry by the merged session and write
the full collection back.  The recursion scans front to back exactly as
`findIndex` does. -/
def updateSession : List Session → String → SessionUpdates → Except String (List Session)
  | [], _, _ => .error "Session not found"
  | s :: rest, sessionId, u =>
    if s.id == sessionId then
      .ok (applyUpdates s u :: rest)
    else
      match updateSession rest sessionId u with
      | .error e => .error e
      | .ok rest2 => .ok (s :: rest2)

/-- `StorageService.deleteSession` (storage.js lines 33-37): filter out the
sessions with the given id and write the result back.  The operation is
total: an unknown id throws nothing and writes the collection back
unchanged. -/
def deleteSession (sessions : List Session) (sessionId : String) : List Session :=
  sessions.filter (fun s => s.id != sessionId)

/-- The lookup stage of `restoreSession` (background worker lines 120-128):
read the stored sessions, `find` the one with the requested id, and throw
`'Session not found'` when there is none.  The rest of `restoreSession`
opens browser windows (an external effect) and is not modelled. -/
def restoreSessionFind (sessions : List Session) (sessionId : String) :
    Except String Session :=
  match sessions.find? (fun s => s.id == sessionId) with
  | none => .error "Session not found"
  | some s => .ok s

/-- Concrete sample sessions used to instantiate theorems. -/
def sampleA : Session :=
  { id := "1001", name := "Research", context := some "transformer papers" }

def sampleB : Session :=
  { id := "1002", name := "Shopping", context := none }

/-- `updateSession` errors exactly on the ids that are not in the
collection. -/
theorem updateSession_not_found (sessions : List Session) (sessionId : String)
    (u : SessionUpdates) (h : sessionId ∉ sessions.map Session.id) :
    updateSession sessions sessionId u = .error "Session not found" := by
  induction sessions with
  | nil => rfl
  | cons s rest ih =>
    simp only [List.map_cons, List.mem_cons, not_or] at h
    have hne : (s.id == sessionId) = false := by
      simp [beq_iff_eq]
      exact fun hc => h.1 hc.symm
    simp [updateSession, hne, ih h.2]

/-- `deleteSession` with an id that is absent from the collection keeps
every entry. -/
theorem deleteSession_absent (sessions : List Session) (sessionId : String)
    (h : sessionId ∉ sessions.map Session.id) :
    deleteSession sessions sessionId = sessions := by
  induction sessions with
  | nil => rfl
  | cons s rest ih =>
    simp only [List.map_cons, List.mem_cons, not_or] at h
    have hne : (s.id != sessionId) = true := by
      simp [bne_iff_ne]
      exact fun hc => h.1 hc.symm
    have ih2 : rest.filter (fun t => t.id != sessionId) = rest := ih h.2
    simp only [deleteSession, List.filter_cons, hne, if_true]
    exact congrArg (s :: ·) ih2

/-- `restoreSessionFind` errors exactly on the ids that are not in the
collection. -/
theorem restoreSessionFind_not_found (sessions : List Session) (sessionId : String)
    (h : sessionId ∉ sessions.map Session.id) :
    restoreSessionFind sessions sessionId = .error "Session not found" := by
  unfold restoreSessionFind
  have : sessions.find? (fun s => s.id == sessionId) = none := by
    rw [List.find?_eq_none]
    intro s hs
    simp only [beq_iff_eq]
    intro hc
    exact h (by simpa [hc] using List.mem_map_of_mem Session.id hs)
  simp [this]

/-- Claim C1, counterexample: deleting an id that is not in the stored
collection does not raise a not-found error — `deleteSession` is total and
returns the collection unchanged, silently. -/
theorem deleteSession_unknown_id_silent :
    deleteSession [sampleA] "9999" = [sampleA] := by decide

/-- Claim C1 (amended): update and restore surface a distinct
`'Session not found'` error for every unknown session identifier, but
delete does not: an unknown id silently leaves the stored collection
unchanged and raises no error. -/
theorem notFound_behavior (sessions : List Session) (sessionId : String)
    (u : SessionUpdates) (h : sessionId ∉ sessions.map Session.id) :
    updateSession sessions sessionId u = .error "Session not found" ∧
    restoreSessionFind sessions sessionId = .error "Session not found" ∧
    deleteSession sessions sessionId = sessions :=
  ⟨updateSession_not_found sessions sessionId u h,
   restoreSessionFind_not_found sessions sessionId h,
   deleteSession_absent sessions sessionId h⟩

/-- Witness for `notFound_behavior` at a concrete collection and id. -/
theorem notFound_behavior_witness :
    "9999" ∉ [sampleA, sampleB].map Session.id ∧
    (updateSession [sampleA, sampleB] "9999" {} = .error "Session not found" ∧
     restoreSessionFind [sampleA, sampleB] "9999" = .error "Session not found" ∧
     deleteSession [sampleA, sampleB] "9999" = [sampleA, sampleB]) :=
  ⟨by decide, notFound_behavior [sampleA, sampleB] "9999" {} (by decide)⟩

/-- Claim C4: a successful update replaces exactly the first entry whose id
matches, merging the updates into it; the collection keeps its length and
every other position is unchanged. -/
theorem updateSession_frame (sessions : List Session) (sessionId : String)
    (u : SessionUpdates) (out : List Session)
    (h : updateSession sessions sessionId u = .ok out) :
    out.length = sessions.length ∧
    ∃ i, ∃ hi : i < sessions.length,
      (sessions.get ⟨i, hi⟩).id = sessionId ∧
      out.get? i = some (applyUpdates (sessions.get ⟨i, hi⟩) u) ∧
      ∀ j, j ≠ i → out.get? j = sessions.get? j := by
  induction sessions generalizing out with
  | nil => simp [updateSession] at h
  | cons s rest ih =>
    by_cases hid : s.id == sessionId
    · rw [updateSession, if_pos hid] at h
      cases h
      refine ⟨by simp, 0, by simp, by simpa using of_decide_eq_true hid, by simp, ?_⟩
      intro j hj
      cases j with
      | zero => exact absurd rfl hj
      | succ n => simp
    · rw [updateSession, if_neg hid] at h
      cases hrec : updateSession rest sessionId u with
      | error e => rw [hrec] at h; cases h
      | ok rest2 =>
        rw [hrec] at h
        cases h
        obtain ⟨hlen, i, hi, hgi, hout, hframe⟩ := ih rest2 hrec
        refine ⟨by simpa using hlen, i + 1, by simpa using Nat.succ_lt_succ hi, ?_, ?_, ?_⟩
        · simpa using hgi
        · simpa using hout
        · intro j hj
          cases j with
          | zero => simp
          | succ n =>
            simpa using hframe n (fun hc => hj (by simp [hc]))

/-- Witness for `updateSession_frame`: updating `sampleB` in a two-session
collection touches only position 1. -/
theorem updateSession_frame_witness :
    updateSession [sampleA, sampleB] "1002" { context := some "gifts" } =
      .ok [sampleA, applyUpdates sampleB { context := some "gifts" }] ∧
    ([sampleA, applyUpdates sampleB { context := some "gifts" }].length =
        [sampleA, sampleB].length ∧
      ∃ i, ∃ hi : i < [sampleA, sampleB].length,
        ([sampleA, sampleB].get ⟨i, hi⟩).id = "1002" ∧
        [sampleA, applyUpdates sampleB { context := some "gifts" }].get? i =
          some (applyUpdates ([sampleA, sampleB].get ⟨i, hi⟩)
            { context := some "gifts" }) ∧
        ∀ j, j ≠ i →
          [sampleA, applyUpdates sampleB { context := some "gifts" }].get? j =
            [sampleA, sampleB].get? j) :=
  ⟨by rfl,
   updateSession_frame [sampleA, sampleB] "1002" { context := some "gifts" }
     [sampleA, applyUpdates sampleB { context := some "gifts" }] (by rfl)⟩

/-! ### Text matching -/

/-- `toLowerCase` applied to a string, as a character list. -/
def lowerChars (s : String) : List Char := s.data.map Char.toLower

/-- `needle` is a prefix of `hay` (character lists). -/
def hasPre : List Char → List Char → Bool
  | [], _ => true
  | _ :: _, [] => false
  | a :: as, b :: bs => a == b && hasPre as bs

/-- JavaScript `hay.includes(needle)`: `needle` occurs as a contiguous
substring of `hay`. -/
def hasSub (needle : List Char) : List Char → Bool
  | [] => hasPre needle []
  | c :: rest => hasPre needle (c :: rest) || hasSub needle rest

/-- The text the text tier matches against: the template string
`` `${session.name} ${session.context || ''}` `` lower-cased
(background worker line 477).  Note the space the template puts between
the two fields. -/
def sessionSearchText (s : Session) : List Char :=
  lowerChars (s.name ++ " " ++ (match s.context with | some c => c | none => ""))

/-- The text-search tier (background worker lines 475-486): keep the
sessions whose search text contains the lower-cased query. -/
def textTier (query : String) (sessions : List Session) : List Session :=
  sessions.filter (fun s => hasSub (lowerChars query) (sessionSearchText s))

/-- The matcher as the spec describes it, for comparison with `textTier`:
the query is matched against the plain concatenation of `name` and
`context` (empty string if absent), with no separator. -/
def specTextMatcher (query : String) (sessions : List Session) : List Session :=
  sessions.filter (fun s =>
    hasSub (lowerChars query)
      (lowerChars (s.name ++ (match s.context with | some c => c | none => ""))))

/-! ### Settings, embeddings and the similarity tier -/

/-- The stored settings fields the search and enrichment paths read.
`apiKey := none` models an absent key (JavaScript `undefined`). -/
structure Settings where
  aiProvider : String
  apiKey : Option String := none
  searchSensitivity : ℚ := 7
  aiRanking : Bool := false
  autoTabGroups : Bool := false
deriving Repr, Inhabited

/-- JavaScript truthiness of an optional string field: absent and `""` are
falsy. -/
def truthy : Option String → Bool
  | none => false
  | some s => s != ""

/-- The sensitivity-to-threshold conversion
`(11 - settings.searchSensitivity) / 10` (background worker line 461). -/
def searchThreshold (sensitivity : ℚ) : ℚ := (11 - sensitivity) / 10

/-- One record of the embedding store: `{sessionId, embedding, timestamp}`
(the timestamp is never read by search and is omitted).  `embedding` is
optional because the loop guards on `embData.embedding` being truthy. -/
structure EmbRecord where
  sessionId : String
  embedding : Option (List ℚ)
deriving Repr, DecidableEq, Inhabited

/-- `AIService.cosineSimilarity` (ai-service.js lines 139-155): throw
`'Vectors must have same length'` on a dimension mismatch, otherwise return
the similarity.  The numeric value — `dot / (sqrt(normA) * sqrt(normB))`
in the source, a floating-point square-root expression — is supplied by the
abstract `score` parameter; the length guard is concrete. -/
def cosineSimilarity (score : List ℚ → List ℚ → ℚ) (vecA vecB : List ℚ) :
    Except String ℚ :=
  if vecA.length != vecB.length then .error "Vectors must have same length"
  else .ok (score vecA vecB)

/-- The similarity loop of the embedding tier (background worker lines
451-458): for each embedding record, look the session up by id; when the
session exists and the record holds a vector, score it against the query
embedding.  A `cosineSimilarity` throw escapes the loop (the `try` block
encloses the whole tier). -/
def embeddingTierLoop (score : List ℚ → List ℚ → ℚ) (sessions : List Session)
    (queryEmbedding : List ℚ) : List EmbRecord → Except String (List (Session × ℚ))
  | [] => .ok []
  | embData :: rest =>
    match sessions.find? (fun s => s.id == embData.sessionId) with
    | some session =>
      match embData.embedding with
      | some vec =>
        match cosineSimilarity score queryEmbedding vec with
        | .error e => .error e
        | .ok sim =>
          match embeddingTierLoop score sessions queryEmbedding rest with
          | .error e => .error e
          | .ok tail => .ok ((session, sim) :: tail)
      | none => embeddingTierLoop score sessions queryEmbedding rest
    | none => embeddingTierLoop score sessions queryEmbedding rest

/-- The embedding tier (background worker lines 445-468): embed the query
(an external call that may fail, modelled by `queryEmbeddingResult`), score
every record, then keep the results at or above the sensitivity threshold,
sort them by descending similarity and map back to sessions. -/
def embeddingTier (score : List ℚ → List ℚ → ℚ) (settings : Settings)
    (sessions : List Session) (queryEmbeddingResult : Except String (List ℚ))
    (allEmbeddings : List EmbRecord) : Except String (List Session) :=
  match queryEmbeddingResult with
  | .error e => .error e
  | .ok queryEmbedding =>
    match embeddingTierLoop score sessions queryEmbedding allEmbeddings with
    | .error e => .error e
    | .ok results =>
      let threshold := searchThreshold settings.searchSensitivity
      .ok (((results.filter (fun r => decide (threshold ≤ r.2))).mergeSort
          (fun a b => decide (b.2 ≤ a.2))).map (fun r => r.1))

/-! ### The relevance reranker and its response parsing -/

/-- A character the regex class `[\d,\s]` accepts. -/
def isClassChar (c : Char) : Bool := c.isDigit || c == ',' || c.isWhitespace

/-- The regex search `responseText.match(/\[[\d,\s]+\])/` without the
brackets: the first `[` followed by a non-empty run of digits, commas and
whitespace and then `]`; `none` when the pattern does not occur. -/
def bracketMatch : List Char → Option (List Char)
  | [] => none
  | c :: rest =>
    if c == '[' then
      let run := rest.takeWhile isClassChar
      if run.isEmpty then bracketMatch rest
      else
        match (rest.drop run.length).head? with
        | some d => if d == ']' then some run else bracketMatch rest
        | none => bracketMatch rest
    else bracketMatch rest

/-- Strip leading and trailing whitespace from a character list. -/
def trimChars (l : List Char) : List Char :=
  ((l.dropWhile Char.isWhitespace).reverse.dropWhile Char.isWhitespace).reverse

/-- JavaScript `split(',')` on a character list. -/
def splitComma : List Char → List (List Char)
  | [] => [[]]
  | c :: rest =>
    if c == ',' then [] :: splitComma rest
    else
      match splitComma rest with
      | [] => [[c]]
      | t :: ts => (c :: t) :: ts

/-- A trimmed token that JSON accepts as an integer: a non-empty digit run
with no leading zero (except the single digit `0`). -/
def jsonIntToken : List Char → Bool
  | [] => false
  | [c] => c.isDigit
  | c :: rest => c.isDigit && c != '0' && rest.all Char.isDigit

/-- The numeric value of a digit run. -/
def digitsToNat (l : List Char) : Nat :=
  l.foldl (fun n c => 10 * n + (c.toNat - 48)) 0

/-- `JSON.parse` restricted to the bracket content the regex can produce
(digits, commas, whitespace): all-whitespace content is the empty array,
otherwise the comma-separated tokens must each be a valid integer token. -/
def parseJsonIntList (run : List Char) : Option (List Nat) :=
  if (trimChars run).isEmpty then some []
  else
    let parts := (splitComma run).map trimChars
    if parts.all jsonIntToken then some (parts.map digitsToNat) else none

/-- The parsing step of `rankSessionsByRelevance` (ai-service.js lines
231-237): find the first bracketed integer-list pattern and `JSON.parse`
it; `none` when the pattern is missing or parsing throws. -/
def extractIndices (responseText : String) : Option (List Nat) :=
  match bracketMatch responseText.data with
  | none => none
  | some run => parseJsonIntList run

/-- `AIService.rankSessionsByRelevance` (ai-service.js lines 158-250) after
the model call, which is modelled by `fetchResponse`: an empty candidate
list returns `[]` before any request; a failed call or an unparsable
response falls back to the first 3 candidates (`sessions.slice(0, 3)`);
otherwise the parsed 1-based indices are kept when within range and mapped
to candidates. -/
def rankSessionsByRelevance (sessions : List Session)
    (fetchResponse : Except String String) : List Session :=
  if sessions.isEmpty then []
  else
    match fetchResponse with
    | .error _ => sessions.take 3
    | .ok responseText =>
      match extractIndices responseText with
      | none => sessions.take 3
      | some indices =>
        (indices.filter
            (fun idx => decide (1 ≤ idx) && decide (idx ≤ sessions.length))).filterMap
          (fun idx => sessions.get? (idx - 1))

/-! ### The search orchestrator -/

/-- What `searchSessionsSemantically` resolves with:
`{ results, method }`. -/
structure SearchOutcome where
  results : List Session
  method : String
deriving Repr, DecidableEq, Inhabited

/-- The `candidateSessions`/`searchMethod` pair after the embedding tier
(background worker lines 440-472): initialised to `(sessions, "text")`;
when the provider is openai, a key is configured and some session has a
context, a successful embedding tier replaces it with
`(found, "embedding")` and a thrown error leaves it alone (the `catch`
only warns). -/
def searchTier1 (score : List ℚ → List ℚ → ℚ) (settings : Settings)
    (sessions : List Session) (queryEmbeddingResult : Except String (List ℚ))
    (allEmbeddings : List EmbRecord) : List Session × String :=
  if settings.aiProvider == "openai" && truthy settings.apiKey &&
      !(sessions.filter (fun s => truthy s.context)).isEmpty then
    match embeddingTier score settings sessions queryEmbeddingResult allEmbeddings with
    | .ok found => (found, "embedding")
    | .error _ => (sessions, "text")
  else (sessions, "text")

/-- The text-tier step (background worker lines 474-486): when the previous
tier produced no candidates or never ran (`searchMethod === 'text'`), the
candidates become the text matches over all sessions. -/
def searchTier2 (query : String) (sessions : List Session)
    (t1 : List Session × String) : List Session × String :=
  if t1.1.isEmpty || t1.2 == "text" then (textTier query sessions, "text")
  else t1

/-- The AI-ranking step (background worker lines 488-507): when reranking
is enabled, a key is configured and some session has a context, rank the
candidates — or, when there are none, every session with a context — and
return the ranked list when it is non-empty. -/
def searchRanked (settings : Settings) (sessions : List Session)
    (rankResponse : Except String String) (t2 : List Session × String) :
    Option (List Session) :=
  if settings.aiRanking && truthy settings.apiKey &&
      !(sessions.filter (fun s => truthy s.context)).isEmpty then
    let sessionsToRank :=
      if !t2.1.isEmpty then t2.1 else sessions.filter (fun s => truthy s.context)
    let topResults := rankSessionsByRelevance sessionsToRank rankResponse
    if !topResults.isEmpty then some topResults else none
  else none

/-- `searchSessionsSemantically` (background worker lines 424-525).
External calls are oracle arguments: `queryEmbeddingResult` is the query
embedding call, `rankResponse` the reranker's model call.  The tiers run in
source order: empty store short-circuit, embedding tier, text tier, AI
ranking (returned immediately when non-empty, method "ai-ranked"), then
the candidate list truncated to 10 with the recorded method. -/
def searchSessionsSemantically (score : List ℚ → List ℚ → ℚ) (settings : Settings)
    (sessions : List Session) (queryEmbeddingResult : Except String (List ℚ))
    (allEmbeddings : List EmbRecord) (rankResponse : Except String String)
    (query : String) : SearchOutcome :=
  if sessions.isEmpty then { results := [], method := "none" }
  else
    let t2 := searchTier2 query sessions
      (searchTier1 score settings sessions queryEmbeddingResult allEmbeddings)
    match searchRanked settings sessions rankResponse t2 with
    | some topResults => { results := topResults, method := "ai-ranked" }
    | none =>
      if t2.1.isEmpty then { results := [], method := t2.2 }
      else { results := t2.1.take 10, method := t2.2 }

/-! ### Helper lemmas -/

/-- A mismatched pair of vectors makes `cosineSimilarity` throw. -/
theorem cosineSimilarity_mismatch (score : List ℚ → List ℚ → ℚ)
    (vecA vecB : List ℚ) (h : vecA.length ≠ vecB.length) :
    cosineSimilarity score vecA vecB = .error "Vectors must have same length" := by
  unfold cosineSimilarity
  rw [if_pos (by simpa [bne_iff_ne] using h)]

/-- An embedding record whose session exists and whose vector's length
differs from the query embedding's makes the whole similarity loop throw. -/
theorem embeddingTierLoop_error_of_mismatch (score : List ℚ → List ℚ → ℚ)
    (sessions : List Session) (queryEmbedding : List ℚ) (embs : List EmbRecord)
    (hex : ∃ r ∈ embs, (sessions.find? (fun s => s.id == r.sessionId)).isSome ∧
      ∃ v, r.embedding = some v ∧ v.length ≠ queryEmbedding.length) :
    ∃ e, embeddingTierLoop score sessions queryEmbedding embs = .error e := by
  induction embs with
  | nil =>
    obtain ⟨r, hr, _⟩ := hex
    cases hr
  | cons rcd rest ih =>
    obtain ⟨r, hr, hfind, v, hv, hlen⟩ := hex
    rw [List.mem_cons] at hr
    cases hfd : sessions.find? (fun s => s.id == rcd.sessionId) with
    | none =>
      have hr2 : r ∈ rest := by
        cases hr with
        | inl h => rw [h] at hfind; rw [hfd] at hfind; cases hfind
        | inr h => exact h
      obtain ⟨e, he⟩ := ih ⟨r, hr2, hfind, v, hv, hlen⟩
      exact ⟨e, by simp only [embeddingTierLoop, hfd]; exact he⟩
    | some session =>
      cases hemb : rcd.embedding with
      | none =>
        have hr2 : r ∈ rest := by
          cases hr with
          | inl h => rw [h] at hv; rw [hemb] at hv; cases hv
          | inr h => exact h
        obtain ⟨e, he⟩ := ih ⟨r, hr2, hfind, v, hv, hlen⟩
        exact ⟨e, by simp only [embeddingTierLoop, hfd, hemb]; exact he⟩
      | some vec =>
        cases hr with
        | inl h =>
          have hvec : vec = v := by
            rw [h] at hv; rw [hemb] at hv; exact (Option.some_inj.mp hv)
          have hcs : cosineSimilarity score queryEmbedding vec =
              .error "Vectors must have same length" := by
            apply cosineSimilarity_mismatch
            rw [hvec]
            exact fun hc => hlen hc.symm
          exact ⟨"Vectors must have same length",
            by simp only [embeddingTierLoop, hfd, hemb, hcs]⟩
        | inr h =>
          cases hcs : cosineSimilarity score queryEmbedding vec with
          | error e =>
            exact ⟨e, by simp only [embeddingTierLoop, hfd, hemb, hcs]⟩
          | ok sim =>
            obtain ⟨e, he⟩ := ih ⟨r, h, hfind, v, hv, hlen⟩
            exact ⟨e, by simp only [embeddingTierLoop, hfd, hemb, hcs, he]⟩

/-- The empty needle is a substring of everything
(JavaScript `hay.includes('')` is true). -/
theorem hasSub_nil (hay : List Char) : hasSub [] hay = true := by
  induction hay with
  | nil => rfl
  | cons c rest ih => simp [hasSub, hasPre]

/-- A non-empty list is not `isEmpty`. -/
theorem isEmpty_false_of_ne_nil {α : Type} {l : List α} (h : l ≠ []) :
    l.isEmpty = false := by
  cases l with
  | nil => exact absurd rfl h
  | cons a t => rfl

/-- When the embedding tier never runs or throws, the candidate pair after
tier 1 is `(sessions, "text")`. -/
theorem searchTier1_fallback (score : List ℚ → List ℚ → ℚ) (settings : Settings)
    (sessions : List Session) (qeR : Except String (List ℚ))
    (embs : List EmbRecord)
    (h : (settings.aiProvider == "openai" && truthy settings.apiKey &&
        !(sessions.filter (fun s => truthy s.context)).isEmpty) = false ∨
      ∃ e, embeddingTier score settings sessions qeR embs = .error e) :
    searchTier1 score settings sessions qeR embs = (sessions, "text") := by
  unfold searchTier1
  cases h with
  | inl hc => rw [if_neg (by simp [hc])]
  | inr hc =>
    obtain ⟨e, he⟩ := hc
    by_cases hcond : (settings.aiProvider == "openai" && truthy settings.apiKey &&
        !(sessions.filter (fun s => truthy s.context)).isEmpty) = true
    · rw [if_pos hcond, he]
    · rw [if_neg hcond]

/-- With reranking disabled the ranking step yields nothing. -/
theorem searchRanked_disabled (settings : Settings) (sessions : List Session)
    (rankResponse : Except String String) (t2 : List Session × String)
    (h : settings.aiRanking = false) :
    searchRanked settings sessions rankResponse t2 = none := by
  unfold searchRanked
  rw [if_neg (by simp [h])]

/-- A similarity-loop error is the embedding tier's error. -/
theorem embeddingTier_error (score : List ℚ → List ℚ → ℚ) (settings : Settings)
    (sessions : List Session) (queryEmbedding : List ℚ) (embs : List EmbRecord)
    (e : String)
    (herr : embeddingTierLoop score sessions queryEmbedding embs = .error e) :
    embeddingTier score settings sessions (.ok queryEmbedding) embs = .error e := by
  simp only [embeddingTier, herr]

/-- On a non-empty store, when tier 1 falls back to `(sessions, "text")`
and reranking is off, search returns the text-tier candidates truncated to
10 with method "text" (the empty outcome when there are none). -/
theorem search_text_path (score : List ℚ → List ℚ → ℚ) (settings : Settings)
    (sessions : List Session) (qeR : Except String (List ℚ)) (embs : List EmbRecord)
    (rankResponse : Except String String) (query : String)
    (hne : sessions ≠ [])
    (htier : searchTier1 score settings sessions qeR embs = (sessions, "text"))
    (hrank : settings.aiRanking = false) :
    searchSessionsSemantically score settings sessions qeR embs rankResponse query =
      if (textTier query sessions).isEmpty then { results := [], method := "text" }
      else { results := (textTier query sessions).take 10, method := "text" } := by
  have ht2 : searchTier2 query sessions (sessions, "text") =
      (textTier query sessions, "text") := by
    unfold searchTier2
    rw [if_pos (by simp)]
  have hr : searchRanked settings sessions rankResponse
      (textTier query sessions, "text") = none :=
    searchRanked_disabled settings sessions rankResponse _ hrank
  unfold searchSessionsSemantically
  rw [if_neg (by simp [isEmpty_false_of_ne_nil hne])]
  simp only [htier, ht2, hr]

/-! ### Claim theorems about search and reranking -/

/-- A concrete stand-in for the floating-point similarity value, used only
to instantiate theorems that hold for every scoring function. -/
def zeroScore : List ℚ → List ℚ → ℚ := fun _ _ => 0

/-- An openai configuration with a key, used to instantiate theorems. -/
def cfgOpenAI : Settings :=
  { aiProvider := "openai", apiKey := some "sk-test", searchSensitivity := 7 }

/-- Claim C3, counterexample: with query embedding `[1, 0]`, a first record
of matching length and a second record of length 3, the embedding tier does
not skip the mismatched record and score the rest — the mismatch throws and
the whole tier returns the error, so the matching record is never ranked. -/
theorem mismatched_record_aborts_tier :
    embeddingTier zeroScore cfgOpenAI [sampleA, sampleB] (.ok [1, 0])
      [{ sessionId := "1001", embedding := some [1, 0] },
       { sessionId := "1002", embedding := some [1, 0, 0] }] =
      .error "Vectors must have same length" := by rfl

/-- Claim C3 (amended): a record whose vector length differs from the query
vector's is rejected — `cosineSimilarity` throws rather than computing a
nonsensical similarity — but the throw aborts the entire embedding tier
instead of skipping that record, so the remaining records of matching
length are not scored in that pass; the orchestrator then falls back to the
text tier (method "text" when reranking is off). -/
theorem mismatch_rejected_tier_aborted (score : List ℚ → List ℚ → ℚ) :
    (∀ vecA vecB : List ℚ, vecA.length ≠ vecB.length →
      cosineSimilarity score vecA vecB = .error "Vectors must have same length") ∧
    (∀ (sessions : List Session) (queryEmbedding : List ℚ) (embs : List EmbRecord),
      (∃ r ∈ embs, (sessions.find? (fun s => s.id == r.sessionId)).isSome ∧
        ∃ v, r.embedding = some v ∧ v.length ≠ queryEmbedding.length) →
      ∃ e, embeddingTierLoop score sessions queryEmbedding embs = .error e) ∧
    (∀ (settings : Settings) (sessions : List Session) (queryEmbedding : List ℚ)
        (embs : List EmbRecord) (rankResponse : Except String String) (query : String),
      sessions ≠ [] → settings.aiRanking = false →
      (∃ r ∈ embs, (sessions.find? (fun s => s.id == r.sessionId)).isSome ∧
        ∃ v, r.embedding = some v ∧ v.length ≠ queryEmbedding.length) →
      (searchSessionsSemantically score settings sessions (.ok queryEmbedding)
        embs rankResponse query).method = "text") := by
  refine ⟨cosineSimilarity_mismatch score,
    embeddingTierLoop_error_of_mismatch score, ?_⟩
  intro settings sessions queryEmbedding embs rankResponse query hne hrank hex
  obtain ⟨e, herr⟩ :=
    embeddingTierLoop_error_of_mismatch score sessions queryEmbedding embs hex
  have htier : searchTier1 score settings sessions (.ok queryEmbedding) embs =
      (sessions, "text") := by
    apply searchTier1_fallback
    right
    exact ⟨e, embeddingTier_error score settings sessions queryEmbedding embs e herr⟩
  rw [search_text_path score settings sessions (.ok queryEmbedding) embs
    rankResponse query hne htier hrank]
  by_cases h2 : (textTier query sessions).isEmpty = true
  · rw [if_pos h2]
  · rw [if_neg h2]

/-- Witness for `mismatch_rejected_tier_aborted`: a two-session store with
one matching and one mismatched embedding record. -/
theorem mismatch_rejected_tier_aborted_witness :
    ([1, 0, 0] : List ℚ).length ≠ ([1, 0] : List ℚ).length ∧
    (searchSessionsSemantically zeroScore cfgOpenAI [sampleA, sampleB]
      (.ok [1, 0])
      [{ sessionId := "1001", embedding := some [1, 0] },
       { sessionId := "1002", embedding := some [1, 0, 0] }]
      (.error "AI ranking failed") "papers").method = "text" :=
  ⟨by decide,
   (mismatch_rejected_tier_aborted zeroScore).2.2 cfgOpenAI [sampleA, sampleB]
     [1, 0]
     [{ sessionId := "1001", embedding := some [1, 0] },
      { sessionId := "1002", embedding := some [1, 0, 0] }]
     (.error "AI ranking failed") "papers" (by decide) (by rfl)
     ⟨{ sessionId := "1002", embedding := some [1, 0, 0] }, by decide, by rfl,
      [1, 0, 0], rfl, by decide⟩⟩

/-- Claim C5: with no stored sessions, search resolves with an empty result
list and method "none", for every query and independently of every tier
input: no embedding call, text match or reranking can influence it. -/
theorem search_empty_store (score : List ℚ → List ℚ → ℚ) (settings : Settings)
    (queryEmbeddingResult : Except String (List ℚ)) (allEmbeddings : List EmbRecord)
    (rankResponse : Except String String) (query : String) :
    searchSessionsSemantically score settings [] queryEmbeddingResult allEmbeddings
      rankResponse query = { results := [], method := "none" } := rfl

/-- Claim C6: the sensitivity-to-threshold conversion is exactly
`(11 - s) / 10` — so 1 maps to 1.0, 7 to 0.4 and 10 to 0.1 — and it is
antitone on the sensitivity range [1, 10]. -/
theorem searchThreshold_spec :
    searchThreshold 1 = 1 ∧ searchThreshold 7 = 2 / 5 ∧
    searchThreshold 10 = 1 / 10 ∧
    (∀ s : ℚ, searchThreshold s = (11 - s) / 10) ∧
    (∀ s1 s2 : ℚ, 1 ≤ s1 → s1 < s2 → s2 ≤ 10 →
      searchThreshold s2 ≤ searchThreshold s1) := by
  refine ⟨by norm_num [searchThreshold], by norm_num [searchThreshold],
    by norm_num [searchThreshold], fun s => rfl, fun s1 s2 _ h _ => ?_⟩
  unfold searchThreshold
  linarith

/-- Witness for `searchThreshold_spec` at sensitivities 7 < 10. -/
theorem searchThreshold_spec_witness :
    (1 : ℚ) ≤ 7 ∧ (7 : ℚ) < 10 ∧ (10 : ℚ) ≤ 10 ∧
    searchThreshold 10 ≤ searchThreshold 7 :=
  ⟨by norm_num, by norm_num, by norm_num,
   searchThreshold_spec.2.2.2.2 7 10 (by norm_num) (by norm_num) (by norm_num)⟩

/-- Claim C7: for a non-empty candidate list, a response without a
bracketed integer-list pattern (or whose bracket content JSON rejects), and
likewise a failed model call, make the reranker return the first 3
candidates in input order; the failure is swallowed — the function is
total, no error reaches the caller. -/
theorem rank_fallback_first3 (sessions : List Session) (responseText msg : String)
    (hne : sessions ≠ []) (hparse : extractIndices responseText = none) :
    rankSessionsByRelevance sessions (.ok responseText) = sessions.take 3 ∧
    rankSessionsByRelevance sessions (.error msg) = sessions.take 3 := by
  constructor
  · simp [rankSessionsByRelevance, isEmpty_false_of_ne_nil hne, hparse]
  · simp [rankSessionsByRelevance, isEmpty_false_of_ne_nil hne]

def sampleC : Session :=
  { id := "1003", name := "Travel", context := some "flights to osaka" }

def sampleD : Session := { id := "1004", name := "News" }

/-- Witness for `rank_fallback_first3`: a four-candidate list with a prose
response that holds no bracketed integer list. -/
theorem rank_fallback_first3_witness :
    ([sampleA, sampleB, sampleC, sampleD] ≠ ([] : List Session)) ∧
    extractIndices "No ranking is possible for this query." = none ∧
    (rankSessionsByRelevance [sampleA, sampleB, sampleC, sampleD]
        (.ok "No ranking is possible for this query.") =
        [sampleA, sampleB, sampleC] ∧
      rankSessionsByRelevance [sampleA, sampleB, sampleC, sampleD]
        (.error "AI ranking failed") = [sampleA, sampleB, sampleC]) :=
  ⟨by decide, by decide,
   rank_fallback_first3 [sampleA, sampleB, sampleC, sampleD]
     "No ranking is possible for this query." "AI ranking failed"
     (by decide) (by decide)⟩

def sampleJoin : Session := { id := "2001", name := "alpha", context := some "beta" }

/-- Claim C8, counterexample: the query "abeta" is a substring of
"alphabeta", the plain concatenation of name and context the claim
describes, so the claimed matcher returns the session — but the code's
search text is the template string "alpha beta" with a space between the
fields, which does not contain "abeta", so the code returns nothing. -/
theorem textTier_vs_plain_concat :
    textTier "abeta" [sampleJoin] = [] ∧
    specTextMatcher "abeta" [sampleJoin] = [sampleJoin] := by decide

/-- Claim C8 (amended): the text matcher returns exactly the sessions for
which the lower-cased query is a substring of the lower-cased
`name ++ " " ++ context` (the empty string when context is absent; note
the space the template string inserts between the fields), and returns
them in the original session-list order. -/
theorem textTier_spec (query : String) (sessions : List Session) :
    (textTier query sessions).Sublist sessions ∧
    ∀ s ∈ sessions,
      (s ∈ textTier query sessions ↔
        hasSub (lowerChars query)
          (lowerChars (s.name ++ " " ++
            (match s.context with | some c => c | none => ""))) = true) := by
  refine ⟨List.filter_sublist sessions, fun s hs => ?_⟩
  simp [textTier, sessionSearchText, List.mem_filter, hs]

/-- Witness for `textTier_spec` on a one-session store. -/
theorem textTier_spec_witness :
    sampleJoin ∈ [sampleJoin] ∧
    (textTier "BETA" [sampleJoin]).Sublist [sampleJoin] ∧
    (sampleJoin ∈ textTier "BETA" [sampleJoin] ↔
      hasSub (lowerChars "BETA")
        (lowerChars (sampleJoin.name ++ " " ++
          (match sampleJoin.context with | some c => c | none => ""))) = true) :=
  ⟨by decide, (textTier_spec "BETA" [sampleJoin]).1,
   (textTier_spec "BETA" [sampleJoin]).2 sampleJoin (by decide)⟩

/-- Claim C9: the empty query matches every session — the empty string is a
substring of every search text — so on a non-empty store where the text
tier runs (non-openai provider here) and reranking is off, search returns
the first sessions of the collection truncated to 10 with method "text",
not an empty result. -/
theorem search_empty_query_matches_all (score : List ℚ → List ℚ → ℚ)
    (settings : Settings) (sessions : List Session)
    (queryEmbeddingResult : Except String (List ℚ)) (allEmbeddings : List EmbRecord)
    (rankResponse : Except String String)
    (hprov : settings.aiProvider ≠ "openai") (hrank : settings.aiRanking = false)
    (hne : sessions ≠ []) :
    textTier "" sessions = sessions ∧
    searchSessionsSemantically score settings sessions queryEmbeddingResult
      allEmbeddings rankResponse "" =
      { results := sessions.take 10, method := "text" } := by
  have htext : textTier "" sessions = sessions := by
    apply List.filter_eq_self.mpr
    intro s _
    exact hasSub_nil (sessionSearchText s)
  refine ⟨htext, ?_⟩
  have htier : searchTier1 score settings sessions queryEmbeddingResult
      allEmbeddings = (sessions, "text") := by
    apply searchTier1_fallback
    left
    simp [beq_eq_false_iff_ne, hprov]
  rw [search_text_path score settings sessions queryEmbeddingResult allEmbeddings
    rankResponse "" hne htier hrank, htext,
    if_neg (by simp [isEmpty_false_of_ne_nil hne])]

/-- Witness for `search_empty_query_matches_all`: an anthropic
configuration, two stored sessions and the empty query. -/
theorem search_empty_query_matches_all_witness :
    ({ aiProvider := "anthropic" } : Settings).aiProvider ≠ "openai" ∧
    ({ aiProvider := "anthropic" } : Settings).aiRanking = false ∧
    ([sampleA, sampleB] ≠ ([] : List Session)) ∧
    (textTier "" [sampleA, sampleB] = [sampleA, sampleB] ∧
      searchSessionsSemantically zeroScore { aiProvider := "anthropic" }
        [sampleA, sampleB] (.error "no key") [] (.error "no key") "" =
        { results := [sampleA, sampleB].take 10, method := "text" }) :=
  ⟨by decide, by rfl, by decide,
   search_empty_query_matches_all zeroScore { aiProvider := "anthropic" }
     [sampleA, sampleB] (.error "no key") [] (.error "no key")
     (by decide) (by rfl) (by decide)⟩

/-- Claim C10: every session the reranker returns is an element of the
input candidate list — parsed indices are filtered to `[1, length]` before
the 1-based lookup, so the lookup stays in bounds and the fallback paths
only take a prefix of the candidates. -/
theorem rank_subset (sessions : List Session) (fetchResponse : Except String String)
    (s : Session) (h : s ∈ rankSessionsByRelevance sessions fetchResponse) :
    s ∈ sessions := by
  unfold rankSessionsByRelevance at h
  by_cases he : sessions.isEmpty = true
  · rw [if_pos he] at h
    cases h
  · rw [if_neg he] at h
    split at h
    · exact List.take_subset 3 sessions h
    · split at h
      · exact List.take_subset 3 sessions h
      · rw [List.mem_filterMap] at h
        obtain ⟨idx, _, hget⟩ := h
        exact List.get?_mem hget

/-- Witness for `rank_subset`: index 2 of a two-candidate list. -/
theorem rank_subset_witness :
    sampleB ∈ rankSessionsByRelevance [sampleA, sampleB] (.ok "[2]") ∧
    sampleB ∈ [sampleA, sampleB] :=
  ⟨by decide, rank_subset [sampleA, sampleB] (.ok "[2]") sampleB (by decide)⟩

/-! ### The enrichment workflow -/

/-- The status message written when enrichment starts. -/
def generatingMsg : String := "Generating AI context and tab groups..."

/-- The error thrown when no API key is configured. -/
def noKeyMsg : String := "API key not configured. Please add your API key in settings."

/-- `AIService.generateContext` (ai-service.js lines 8-22): throw when no
key is configured, dispatch on the provider — the model call itself is the
`fetchContext` oracle — and throw on an unsupported provider. -/
def generateContext (settings : Settings) (fetchContext : Except String String) :
    Except String String :=
  if !truthy settings.apiKey then .error noKeyMsg
  else if settings.aiProvider == "anthropic" then fetchContext
  else if settings.aiProvider == "openai" then fetchContext
  else .error "Unsupported AI provider"

/-- `generateContextForSession` (background worker lines 332-421), returning
the persisted collection and the value the caller sees.  The steps in source
order: mark the session as generating (a throw here reaches the outer catch,
whose own status update fails for the same missing id and is only logged);
on a missing API key write the not-configured status and throw, so the outer
catch writes the status once more with the thrown message; otherwise obtain
the summary (`generateContext`), the tab groups when enabled (`fetchGroups`
is the result after `generateTabGroups`'s internal catch, which never
throws), and write context, groups (`undefined` when empty), and the
Complete status.  A summary failure reaches the outer catch, which records
the error status.  The embedding step only writes the separate IndexedDB
store and its failure is swallowed, so it does not affect the session
collection modelled here. -/
def generateContextForSession (settings : Settings) (sessions : List Session)
    (sessionId : String) (fetchContext : Except String String)
    (fetchGroups : List TabGroup) : List Session × Except String String :=
  match updateSession sessions sessionId
      { generatingContext := some true, generationStatus := some generatingMsg } with
  | .error e => (sessions, .error e)
  | .ok s1 =>
    if !truthy settings.apiKey then
      let s2 := match updateSession s1 sessionId
          { generatingContext := some false,
            generationStatus := some "Error: API key not configured" } with
        | .ok l => l
        | .error _ => s1
      let s3 := match updateSession s2 sessionId
          { generatingContext := some false,
            generationStatus := some ("Error: " ++ noKeyMsg) } with
        | .ok l => l
        | .error _ => s2
      (s3, .error noKeyMsg)
    else
      match generateContext settings fetchContext with
      | .error e =>
        let s2 := match updateSession s1 sessionId
            { generatingContext := some false,
              generationStatus := some ("Error: " ++ e) } with
          | .ok l => l
          | .error _ => s1
        (s2, .error e)
      | .ok context =>
        let tabGroups := if settings.autoTabGroups then fetchGroups else []
        match updateSession s1 sessionId
            { context := some context
              generatingContext := some false
              generationStatus := some "Complete"
              tabGroups := some (if tabGroups.length > 0 then some tabGroups else none) } with
        | .ok s2 => (s2, .ok context)
        | .error e =>
          let s3 := match updateSession s1 sessionId
              { generatingContext := some false,
                generationStatus := some ("Error: " ++ e) } with
            | .ok l => l
            | .error _ => s1
          (s3, .error e)

/-- `updateSession` on a decomposed collection: with no match before `s` and
`s` matching, the merged entry replaces `s` in place. -/
theorem updateSession_append (pre post : List Session) (s : Session)
    (sessionId : String) (u : SessionUpdates)
    (hid : s.id = sessionId) (hpre : ∀ t ∈ pre, t.id ≠ sessionId) :
    updateSession (pre ++ s :: post) sessionId u =
      .ok (pre ++ applyUpdates s u :: post) := by
  induction pre with
  | nil =>
    simp only [List.nil_append, updateSession]
    rw [if_pos (by simp [beq_iff_eq, hid])]
  | cons t rest ih =>
    have ht : (t.id == sessionId) = false := by
      simp only [beq_eq_false_iff_ne]
      exact hpre t (List.mem_cons_self t rest)
    have ih2 := ih (fun x hx => hpre x (List.mem_cons_of_mem t hx))
    simp only [List.cons_append, updateSession, ht, Bool.false_eq_true, if_false,
      List.append_eq, ih2]

def cfgNoKey : Settings := { aiProvider := "anthropic" }

/-- Claim C2, counterexample: starting enrichment with no API key does
surface the configuration error to the caller, but the persisted session is
not exactly as before — the stored collection changes (the session's
generation-status fields are rewritten before the error propagates). -/
theorem generateContext_noKey_mutates :
    (generateContextForSession cfgNoKey [sampleA] "1001" (.ok "ctx") []).2 =
      .error noKeyMsg ∧
    (generateContextForSession cfgNoKey [sampleA] "1001" (.ok "ctx") []).1 ≠
      [sampleA] :=
  ⟨by rfl, by decide⟩

/-- Claim C2 (amended): with no API credential configured, enrichment
surfaces the configuration error immediately — no summary, grouping or
embedding call is reached — but the mutation is not zero: the target
session's `generatingContext` is set to `false` and its `generationStatus`
to the error message, while all its other fields and every other session
are unchanged. -/
theorem generateContext_noKey_spec (settings : Settings) (sessionId : String)
    (fetchContext : Except String String) (fetchGroups : List TabGroup)
    (pre post : List Session) (s : Session)
    (hkey : truthy settings.apiKey = false)
    (hid : s.id = sessionId)
    (hpre : ∀ t ∈ pre, t.id ≠ sessionId) :
    generateContextForSession settings (pre ++ s :: post) sessionId
      fetchContext fetchGroups =
      (pre ++ { s with generatingContext := some false,
                       generationStatus := some ("Error: " ++ noKeyMsg) } :: post,
       .error noKeyMsg) := by
  have h1 := updateSession_append pre post s sessionId
    { generatingContext := some true, generationStatus := some generatingMsg }
    hid hpre
  have h2 := updateSession_append pre post
    (applyUpdates s
      { generatingContext := some true, generationStatus := some generatingMsg })
    sessionId
    { generatingContext := some false,
      generationStatus := some "Error: API key not configured" }
    hid hpre
  have h3 := updateSession_append pre post
    (applyUpdates
      (applyUpdates s
        { generatingContext := some true, generationStatus := some generatingMsg })
      { generatingContext := some false,
        generationStatus := some "Error: API key not configured" })
    sessionId
    { generatingContext := some false,
      generationStatus := some ("Error: " ++ noKeyMsg) }
    hid hpre
  simp only [generateContextForSession, h1, hkey, Bool.not_false, if_true, h2, h3]
  rfl

/-- Witness for `generateContext_noKey_spec`: a keyless configuration and a
two-session store with the target in second position. -/
theorem generateContext_noKey_spec_witness :
    truthy cfgNoKey.apiKey = false ∧
    sampleA.id = "1001" ∧
    (∀ t ∈ [sampleB], t.id ≠ "1001") ∧
    generateContextForSession cfgNoKey ([sampleB] ++ sampleA :: []) "1001"
      (.ok "ctx") [] =
      ([sampleB] ++ { sampleA with generatingContext := some false,
                                   generationStatus := some ("Error: " ++ noKeyMsg) } :: [],
       .error noKeyMsg) :=
  ⟨by rfl, by rfl, by decide,
   generateContext_noKey_spec cfgNoKey "1001" (.ok "ctx") [] [sampleB] []
     sampleA (by rfl) (by rfl) (by decide)⟩
